import Mathlib

/-!
Verification of the Babylon.js `Engine` GPU device/state abstraction layer
(`src/nodeEditor/src/graphEditor.tsx`), shallowly embedded in Lean.

Stateful engine methods are modelled as functions
`args → EngineState → EngineState × List GLCall`, where the returned list is
the ordered trace of calls forwarded to the underlying WebGL context.
Numeric WebGL enum values are used where the source references `this._gl.*`.
JavaScript numbers that the source only ever uses at integral values are
modelled as `Int`/`Nat`.
-/

namespace BabylonEngine

/-! ## WebGL numeric constants (values of the WebGL enums the source uses) -/

def TEXTURE_2D : Nat := 3553
def ARRAY_BUFFER : Nat := 34962
def ELEMENT_ARRAY_BUFFER : Nat := 34963
def LEQUAL : Nat := 515
def TEXTURE0 : Int := 33984
def UNSIGNED_SHORT : Nat := 5123
def UNSIGNED_INT : Nat := 5125
def TRIANGLES : Nat := 4
def POINTS : Nat := 0
def LINES : Nat := 1
def LINE_LOOP : Nat := 2
def LINE_STRIP : Nat := 3
def TRIANGLE_STRIP : Nat := 5
def TRIANGLE_FAN : Nat := 6

/-! ## Babylon `Constants` material fill/draw modes and scale modes -/

def MATERIAL_TriangleFillMode : Nat := 0
def MATERIAL_WireFrameFillMode : Nat := 1
def MATERIAL_PointFillMode : Nat := 2
def MATERIAL_PointListDrawMode : Nat := 3
def MATERIAL_LineListDrawMode : Nat := 4
def MATERIAL_LineLoopDrawMode : Nat := 5
def MATERIAL_LineStripDrawMode : Nat := 6
def MATERIAL_TriangleStripDrawMode : Nat := 7
def MATERIAL_TriangleFanDrawMode : Nat := 8
def SCALEMODE_FLOOR : Nat := 1
def SCALEMODE_NEAREST : Nat := 2
def SCALEMODE_CEILING : Nat := 3
def ALPHA_DISABLE : Nat := 0
def ALPHA_ADD : Nat := 1
def ALPHA_COMBINE : Nat := 2
def ALPHA_SUBTRACT : Nat := 3
def ALPHA_MULTIPLY : Nat := 4
def ALPHA_MAXIMIZED : Nat := 5
def ALPHA_ONEONE : Nat := 6
def ALPHA_PREMULTIPLIED : Nat := 7
def ALPHA_PREMULTIPLIED_PORTERDUFF : Nat := 8
def ALPHA_INTERPOLATE : Nat := 9
def ALPHA_SCREENMODE : Nat := 10

/-! ## WebGL blend-factor enums used by `setAlphaMode` -/

def GL_ZERO : Nat := 0
def GL_ONE : Nat := 1
def GL_SRC_ALPHA : Nat := 770
def GL_ONE_MINUS_SRC_ALPHA : Nat := 771
def GL_ONE_MINUS_SRC_COLOR : Nat := 769
def GL_DST_COLOR : Nat := 774
def GL_CONSTANT_COLOR : Nat := 32769
def GL_ONE_MINUS_CONSTANT_COLOR : Nat := 32770
def GL_CONSTANT_ALPHA : Nat := 32771
def GL_ONE_MINUS_CONSTANT_ALPHA : Nat := 32772

/-- A call forwarded to the underlying WebGL context (`this._gl.*`).
Textures, buffers, programs and vertex array objects are identified by
numeric ids standing for the JavaScript object identities the source
compares with `===`/`!==`. -/
inductive GLCall where
  | activeTexture (unit : Int)
  | bindTexture (target : Nat) (texture : Option Nat) (multiview : Bool)
  | uniform1i (slot : Int) (value : Int)
  | bindBuffer (target : Nat) (buffer : Option Nat)
  | bindVertexArray (vao : Option Nat)
  | viewport (x y w h : Int)
  | useProgram (program : Nat)
  | deleteBuffer (buffer : Nat)
  | applyDepthCulling
  | applyStencil
  | applyAlpha
  | drawElements (mode : Nat) (count : Int) (format : Nat) (offset : Int)
  | drawElementsInstanced (mode : Nat) (count : Int) (format : Nat) (offset : Int)
      (instances : Int)
  deriving DecidableEq, Repr

/-- Pointwise update of an `Int`-indexed map (a JS dictionary keyed by number). -/
def updI {α : Type} (f : Int → α) (k : Int) (v : α) : Int → α :=
  fun i => if i = k then v else f i

/-- Pointwise update of a `Nat`-indexed map. -/
def updN {α : Type} (f : Nat → α) (k : Nat) (v : α) : Nat → α :=
  fun i => if i = k then v else f i

/-- The `_viewportCached = { x: 0, y: 0, z: 0, w: 0 }` record. -/
structure ViewportCache where
  x : Int
  y : Int
  z : Int
  w : Int
  deriving DecidableEq, Repr

/-- A `WebGLDataBuffer` (`DataBuffer`): native buffer object id, reference
count and 32-bit-index flag.  `references` is an `Int` because the source
decrements it without a floor. -/
structure DataBuffer where
  id : Nat
  references : Int
  is32Bits : Bool
  deriving DecidableEq, Repr

/-- A camera: the only field the modelled operations touch. -/
structure Camera where
  currentRenderId : Int
  deriving DecidableEq, Repr

/-- A scene: the only field the modelled operations touch. -/
structure Scene where
  cameras : List Camera
  deriving DecidableEq, Repr

/-- The rendering canvas dimensions mutated by `setSize`. -/
structure Canvas where
  width : Int
  height : Int
  deriving DecidableEq, Repr

/-- The deferred `_AlphaState` object, as visible from the repository slice:
`setAlphaMode` writes its `alphaBlend` flag and (through
`setAlphaBlendFunctionParameters`, an imported method that stores the four
factors) its blend-function parameters; the rest of the imported class's
content is carried as an opaque `internals` snapshot. -/
structure AlphaStateModel where
  alphaBlend : Bool
  blendFunctionParameters : Option (Nat × Nat × Nat × Nat)
  internals : Nat
  deriving DecidableEq, Repr

/-- Modelled from the spec: `_alphaState.reset()` (imported class body
outside the repository slice) restores the object's defaults wholesale —
blending disabled, no blend parameters. -/
def alphaStateReset : AlphaStateModel where
  alphaBlend := false
  blendFunctionParameters := none
  internals := 0

/-- The engine's cached/mirrored state (the fields of the `Engine` class the
modelled methods read or write).  Per-texture mutable fields
(`_associatedChannel`, immutable `isMultiview`) live in the maps
`assocChannel` and `multiview` keyed by texture id.  The depth-culling and
stencil state objects are imported classes whose bodies are outside the
repository slice; they are carried as opaque `Nat` snapshots, next to the
engine-visible mirrors `depthFunc` and `depthMask` of the depth-culling
object's fields that in-slice code writes.  `alphaMode` is the engine's
`_alphaMode` field consulted by `setAlphaMode`. -/
structure EngineState where
  boundTexturesCache : Int → Option Nat
  activeChannel : Int
  currentTextureChannel : Int
  assocChannel : Nat → Int
  multiview : Nat → Bool
  boundUniformState : Int → Int
  currentEffect : Option Nat
  currentProgram : Option Nat
  viewportCached : ViewportCache
  depthCullingState : Nat
  depthFunc : Nat
  depthMask : Bool
  stencilState : Nat
  alphaState : AlphaStateModel
  alphaMode : Nat
  unpackFlipYCached : Option Bool
  currentBoundBuffer : Nat → Option Nat
  cachedVertexBuffers : Option Nat
  cachedIndexBuffer : Option Nat
  cachedEffectForVertexBuffers : Option Nat
  cachedVertexArrayObject : Option Nat
  vaoRecordInProgress : Bool
  uintIndicesCurrentlySet : Bool
  preventCacheWipeBetweenFrames : Bool
  drawCalls : Nat
  contextWasLost : Bool
  renderingCanvas : Option Canvas
  scenes : List Scene
  resizeHasObservers : Bool

/-- Sentinel snapshot written by `_stencilState.reset()` and
`_depthCullingState.reset()`.  Modelled from the spec: the reset bodies
live in imported state classes outside the repository slice; each reset
replaces the snapshot wholesale (for the depth-culling object this also
restores the `depthMask`/`depthFunc` mirrors to their defaults). -/
def stateResetValue : Nat := 0

/-! ## Texture binding (`_activateCurrentTexture`, `_bindSamplerUniformToChannel`,
`_bindTextureDirectly`, `_bindTexture`) -/

/-- `Engine._activateCurrentTexture`. -/
def activateCurrentTexture (s : EngineState) : EngineState × List GLCall :=
  if s.currentTextureChannel ≠ s.activeChannel then
    ({ s with currentTextureChannel := s.activeChannel },
      [.activeTexture (TEXTURE0 + s.activeChannel)])
  else (s, [])

/-- `Engine._bindSamplerUniformToChannel`.  `_boundUniforms` is modelled as a
total map from slot to the uniform's `_currentState` (callers install the
uniform handle before a texture is used for rendering). -/
def bindSamplerUniformToChannel (sourceSlot destination : Int) (s : EngineState) :
    EngineState × List GLCall :=
  if s.boundUniformState sourceSlot = destination then (s, [])
  else
    ({ s with boundUniformState := updI s.boundUniformState sourceSlot destination },
      [.uniform1i sourceSlot destination])

/-- `Engine._bindTextureDirectly`.  Returns the final state, the forwarded GL
calls, and `wasPreviouslyBound`. -/
def bindTextureDirectly (target : Nat) (texture : Option Nat)
    (forTextureDataUpdate : Bool := false) (force : Bool := false)
    (s : EngineState) : EngineState × List GLCall × Bool :=
  let isTextureForRendering :=
    match texture with
    | some t => decide (s.assocChannel t > -1)
    | none => false
  let s :=
    if forTextureDataUpdate && isTextureForRendering then
      match texture with
      | some t => { s with activeChannel := s.assocChannel t }
      | none => s
    else s
  let currentTextureBound := s.boundTexturesCache s.activeChannel
  let step :=
    if currentTextureBound ≠ texture ∨ force = true then
      let r1 := activateCurrentTexture s
      let bindCall :=
        match texture with
        | some t => GLCall.bindTexture target (some t) (r1.1.multiview t)
        | none => GLCall.bindTexture target none false
      let s2 := { r1.1 with
        boundTexturesCache := updI r1.1.boundTexturesCache r1.1.activeChannel texture }
      let s3 :=
        match texture with
        | some t => { s2 with assocChannel := updN s2.assocChannel t s2.activeChannel }
        | none => s2
      (s3, r1.2 ++ [bindCall], false)
    else if forTextureDataUpdate then
      let r1 := activateCurrentTexture s
      (r1.1, r1.2, true)
    else (s, ([] : List GLCall), false)
  let s := step.1
  let calls := step.2.1
  let wasPreviouslyBound := step.2.2
  if isTextureForRendering && !forTextureDataUpdate then
    match texture with
    | some t =>
        let r4 := bindSamplerUniformToChannel (s.assocChannel t) s.activeChannel s
        (r4.1, calls ++ r4.2, wasPreviouslyBound)
    | none => (s, calls, wasPreviouslyBound)
  else (s, calls, wasPreviouslyBound)

/-- `Engine._bindTexture` (the `channel === undefined` guard has no
counterpart: the channel is always a number here). -/
def bindTexture (channel : Int) (texture : Option Nat) (s : EngineState) :
    EngineState × List GLCall :=
  let s :=
    match texture with
    | some t => { s with assocChannel := updN s.assocChannel t channel }
    | none => s
  let s := { s with activeChannel := channel }
  let r := bindTextureDirectly TEXTURE_2D texture false false s
  (r.1, r.2.1)

/-- The `gl.bindTexture` calls inside a trace. -/
def bindTextureCalls (l : List GLCall) : List GLCall :=
  l.filter fun c =>
    match c with
    | .bindTexture _ _ _ => true
    | _ => false

/-- `Engine.resetTextureCache`: every channel of `_boundTexturesCache` is set
back to `null` and the current texture channel to `-1`. -/
def resetTextureCache (s : EngineState) : EngineState :=
  { s with boundTexturesCache := fun _ => none, currentTextureChannel := -1 }

/-! ## Buffer and vertex-array binding (`bindBuffer`, `bindArrayBuffer`,
`bindIndexBuffer`, `_bindIndexBufferWithCache`, `_unbindVertexArrayObject`,
`_resetVertexBufferBinding`) -/

/-- `Engine._unbindVertexArrayObject`. -/
def unbindVertexArrayObject (s : EngineState) : EngineState × List GLCall :=
  if s.cachedVertexArrayObject = none then (s, [])
  else ({ s with cachedVertexArrayObject := none }, [.bindVertexArray none])

/-- `Engine.bindBuffer` (private): forwards `gl.bindBuffer` when a VAO
recording is in progress or the cached binding for `target` differs. -/
def bindBuffer (buffer : Option Nat) (target : Nat) (s : EngineState) :
    EngineState × List GLCall :=
  if s.vaoRecordInProgress = true ∨ s.currentBoundBuffer target ≠ buffer then
    ({ s with currentBoundBuffer := updN s.currentBoundBuffer target buffer },
      [.bindBuffer target buffer])
  else (s, [])

/-- `Engine.bindArrayBuffer`. -/
def bindArrayBuffer (buffer : Option Nat) (s : EngineState) :
    EngineState × List GLCall :=
  let r1 := if !s.vaoRecordInProgress then unbindVertexArrayObject s else (s, [])
  let r2 := bindBuffer buffer ARRAY_BUFFER r1.1
  (r2.1, r1.2 ++ r2.2)

/-- `Engine.bindIndexBuffer` (private). -/
def bindIndexBuffer (buffer : Option Nat) (s : EngineState) :
    EngineState × List GLCall :=
  let r1 := if !s.vaoRecordInProgress then unbindVertexArrayObject s else (s, [])
  let r2 := bindBuffer buffer ELEMENT_ARRAY_BUFFER r1.1
  (r2.1, r1.2 ++ r2.2)

/-- `Engine._bindIndexBufferWithCache`. -/
def bindIndexBufferWithCache (indexBuffer : Option DataBuffer) (s : EngineState) :
    EngineState × List GLCall :=
  match indexBuffer with
  | none => (s, [])
  | some b =>
    if s.cachedIndexBuffer ≠ some b.id then
      let s := { s with cachedIndexBuffer := some b.id }
      let r1 := bindIndexBuffer (some b.id) s
      ({ r1.1 with uintIndicesCurrentlySet := b.is32Bits }, r1.2)
    else (s, [])

/-- `Engine._resetVertexBufferBinding`. -/
def resetVertexBufferBinding (s : EngineState) : EngineState × List GLCall :=
  let r1 := bindArrayBuffer none s
  ({ r1.1 with cachedVertexBuffers := none }, r1.2)

/-! ## Viewport and program (`_viewport`, `setProgram`) -/

/-- `Engine._viewport`. -/
def viewport (x y width height : Int) (s : EngineState) :
    EngineState × List GLCall :=
  if x ≠ s.viewportCached.x ∨ y ≠ s.viewportCached.y ∨
      width ≠ s.viewportCached.z ∨ height ≠ s.viewportCached.w then
    ({ s with viewportCached := ⟨x, y, width, height⟩ },
      [.viewport x y width height])
  else (s, [])

/-- `Engine.setProgram` (private). -/
def setProgram (program : Nat) (s : EngineState) : EngineState × List GLCall :=
  if s.currentProgram ≠ some program then
    ({ s with currentProgram := some program }, [.useProgram program])
  else (s, [])

/-- `Engine.setDepthFunctionToLessOrEqual` (writes
`_depthCullingState.depthFunc`, mirrored here as `depthFunc`). -/
def setDepthFunctionToLessOrEqual (s : EngineState) : EngineState :=
  { s with depthFunc := LEQUAL }

/-- `Engine.setDepthWrite` (writes `_depthCullingState.depthMask`, mirrored
here as `depthMask`). -/
def setDepthWrite (enable : Bool) (s : EngineState) : EngineState :=
  { s with depthMask := enable }

/-- `Engine.setAlphaMode`: early-returns when `_alphaMode` already equals
the requested mode; otherwise writes the mode's blend parameters and blend
flag into the deferred `_alphaState` object (pushed to the context by the
next `applyStates`), optionally updates the depth write, and records the
mode.  Issues no direct GL call. -/
def setAlphaMode (mode : Nat) (noDepthWriteChange : Bool := false)
    (s : EngineState) : EngineState :=
  if s.alphaMode = mode then s
  else
    let s :=
      if mode = ALPHA_DISABLE then
        { s with alphaState := { s.alphaState with alphaBlend := false } }
      else if mode = ALPHA_PREMULTIPLIED then
        { s with alphaState := { s.alphaState with
          blendFunctionParameters :=
            some (GL_ONE, GL_ONE_MINUS_SRC_ALPHA, GL_ONE, GL_ONE)
          alphaBlend := true } }
      else if mode = ALPHA_PREMULTIPLIED_PORTERDUFF then
        { s with alphaState := { s.alphaState with
          blendFunctionParameters :=
            some (GL_ONE, GL_ONE_MINUS_SRC_ALPHA, GL_ONE, GL_ONE_MINUS_SRC_ALPHA)
          alphaBlend := true } }
      else if mode = ALPHA_COMBINE then
        { s with alphaState := { s.alphaState with
          blendFunctionParameters :=
            some (GL_SRC_ALPHA, GL_ONE_MINUS_SRC_ALPHA, GL_ONE, GL_ONE)
          alphaBlend := true } }
      else if mode = ALPHA_ONEONE then
        { s with alphaState := { s.alphaState with
          blendFunctionParameters := some (GL_ONE, GL_ONE, GL_ZERO, GL_ONE)
          alphaBlend := true } }
      else if mode = ALPHA_ADD then
        { s with alphaState := { s.alphaState with
          blendFunctionParameters := some (GL_SRC_ALPHA, GL_ONE, GL_ZERO, GL_ONE)
          alphaBlend := true } }
      else if mode = ALPHA_SUBTRACT then
        { s with alphaState := { s.alphaState with
          blendFunctionParameters :=
            some (GL_ZERO, GL_ONE_MINUS_SRC_COLOR, GL_ONE, GL_ONE)
          alphaBlend := true } }
      else if mode = ALPHA_MULTIPLY then
        { s with alphaState := { s.alphaState with
          blendFunctionParameters := some (GL_DST_COLOR, GL_ZERO, GL_ONE, GL_ONE)
          alphaBlend := true } }
      else if mode = ALPHA_MAXIMIZED then
        { s with alphaState := { s.alphaState with
          blendFunctionParameters :=
            some (GL_SRC_ALPHA, GL_ONE_MINUS_SRC_COLOR, GL_ONE, GL_ONE)
          alphaBlend := true } }
      else if mode = ALPHA_INTERPOLATE then
        { s with alphaState := { s.alphaState with
          blendFunctionParameters :=
            some (GL_CONSTANT_COLOR, GL_ONE_MINUS_CONSTANT_COLOR,
              GL_CONSTANT_ALPHA, GL_ONE_MINUS_CONSTANT_ALPHA)
          alphaBlend := true } }
      else if mode = ALPHA_SCREENMODE then
        { s with alphaState := { s.alphaState with
          blendFunctionParameters :=
            some (GL_ONE, GL_ONE_MINUS_SRC_COLOR, GL_ONE, GL_ONE_MINUS_SRC_ALPHA)
          alphaBlend := true } }
      else s
    let s :=
      if !noDepthWriteChange then setDepthWrite (mode = ALPHA_DISABLE) s else s
    { s with alphaMode := mode }

/-- An `Effect` as consumed by `enableEffect`/`bindSamplers`: its object
identity, its pipeline context's linked program, and per sampler index the
`_currentState` of the uniform `getUniform` returns (`none` when it
returns null).  Uniform handles carry only their `_currentState` here, as
in `boundUniformState`. -/
structure Effect where
  id : Nat
  program : Nat
  samplers : List (Option Int)
  deriving DecidableEq, Repr

/-- The `bindSamplers` loop: `_boundUniforms[index] = uniform` for each
sampler index whose uniform exists. -/
def installSamplers (samplers : List (Option Int)) (idx : Int) (f : Int → Int) :
    Int → Int :=
  match samplers with
  | [] => f
  | some u :: rest => installSamplers rest (idx + 1) (updI f idx u)
  | none :: rest => installSamplers rest (idx + 1) f

/-- `Engine.bindSamplers`. -/
def bindSamplers (e : Effect) (s : EngineState) : EngineState × List GLCall :=
  let r1 := setProgram e.program s
  let s2 := { r1.1 with
    boundUniformState := installSamplers e.samplers 0 r1.1.boundUniformState }
  ({ s2 with currentEffect := none }, r1.2)

/-- `Engine.enableEffect`.  The trailing `effect.onBind` /
`_onBindObservable` notifications invoke the effect's own observers and
touch no engine state and no GL state. -/
def enableEffect (effect : Option Effect) (s : EngineState) :
    EngineState × List GLCall :=
  match effect with
  | none => (s, [])
  | some e =>
    if s.currentEffect = some e.id then (s, [])
    else
      let r1 := bindSamplers e s
      ({ r1.1 with currentEffect := some e.id }, r1.2)

/-! ## `wipeCaches` -/

/-- `Engine.wipeCaches`. -/
def wipeCaches (bruteForce : Bool) (s : EngineState) : EngineState × List GLCall :=
  if s.preventCacheWipeBetweenFrames = true ∧ bruteForce = false then (s, [])
  else
    let s := { s with currentEffect := none, viewportCached := ⟨0, 0, 0, 0⟩ }
    let s :=
      if bruteForce then
        let s := resetTextureCache s
        let s := { s with
          currentProgram := none
          stencilState := stateResetValue
          depthCullingState := stateResetValue
          depthMask := true
          depthFunc := 0 }
        let s := setDepthFunctionToLessOrEqual s
        { s with alphaState := alphaStateReset, unpackFlipYCached := none }
      else s
    let r1 := resetVertexBufferBinding s
    let s2 := { r1.1 with
      cachedIndexBuffer := none
      cachedEffectForVertexBuffers := none }
    let r2 := unbindVertexArrayObject s2
    let r3 := bindIndexBuffer none r2.1
    (r3.1, r1.2 ++ r2.2 ++ r3.2)

/-! ## Buffer release (`_releaseBuffer`) -/

/-- `Engine._releaseBuffer`.  Returns the buffer with the decremented
reference count, the forwarded GL calls, and the method's boolean result. -/
def releaseBuffer (buffer : DataBuffer) : (DataBuffer × List GLCall) × Bool :=
  let buffer := { buffer with references := buffer.references - 1 }
  if buffer.references = 0 then ((buffer, [.deleteBuffer buffer.id]), true)
  else ((buffer, []), false)

/-- `n` successive `_releaseBuffer` calls on the same buffer, accumulating
the forwarded GL calls. -/
def releaseN : Nat → DataBuffer → DataBuffer × List GLCall
  | 0, b => (b, [])
  | n + 1, b =>
    let r := releaseBuffer b
    let rest := releaseN n r.1.1
    (rest.1, r.1.2 ++ rest.2)

/-- The `gl.deleteBuffer` calls inside a trace. -/
def deleteBufferCalls (l : List GLCall) : List GLCall :=
  l.filter fun c =>
    match c with
    | .deleteBuffer _ => true
    | _ => false

/-- The `applyStates`-forwarded state applications inside a trace. -/
def applyCalls (l : List GLCall) : List GLCall :=
  l.filter fun c =>
    match c with
    | .applyDepthCulling => true
    | .applyStencil => true
    | .applyAlpha => true
    | _ => false

/-! ## Draw dispatch (`applyStates`, `_drawMode`, `drawElementsType`) -/

/-- `Engine.applyStates`: pushes the three cached state objects to the
context.  The imported state classes' `apply` bodies are outside the
repository slice; each is modelled as one opaque forwarded call. -/
def applyStates (s : EngineState) : EngineState × List GLCall :=
  (s, [.applyDepthCulling, .applyStencil, .applyAlpha])

/-- `Engine._drawMode`. -/
def drawMode (fillMode : Nat) : Nat :=
  if fillMode = MATERIAL_TriangleFillMode then TRIANGLES
  else if fillMode = MATERIAL_PointFillMode then POINTS
  else if fillMode = MATERIAL_WireFrameFillMode then LINES
  else if fillMode = MATERIAL_PointListDrawMode then POINTS
  else if fillMode = MATERIAL_LineListDrawMode then LINES
  else if fillMode = MATERIAL_LineLoopDrawMode then LINE_LOOP
  else if fillMode = MATERIAL_LineStripDrawMode then LINE_STRIP
  else if fillMode = MATERIAL_TriangleStripDrawMode then TRIANGLE_STRIP
  else if fillMode = MATERIAL_TriangleFanDrawMode then TRIANGLE_FAN
  else TRIANGLES

/-- `Engine.drawElementsType`.  `instancesCount` is an optional JS number;
`if (instancesCount)` is true exactly when it is present and nonzero.
`_drawCalls.addCount(1, false)` adds one to the draw-call performance
counter (modelled from the spec: `PerfCounter` is an imported class outside
the repository slice; the spec's draw contract is that the draw count
increments by exactly 1 per call). -/
def drawElementsType (fillMode : Nat) (indexStart indexCount : Int)
    (instancesCount : Option Int) (s : EngineState) : EngineState × List GLCall :=
  let r1 := applyStates s
  let c1 := r1.2
  let s2 := { r1.1 with drawCalls := r1.1.drawCalls + 1 }
  let mode := drawMode fillMode
  let indexFormat := if s2.uintIndicesCurrentlySet then UNSIGNED_INT else UNSIGNED_SHORT
  let mult : Int := if s2.uintIndicesCurrentlySet then 4 else 2
  if instancesCount.elim false (fun n => n ≠ 0) then
    (s2, c1 ++ [.drawElementsInstanced mode indexCount indexFormat (indexStart * mult)
      (instancesCount.getD 0)])
  else
    (s2, c1 ++ [.drawElements mode indexCount indexFormat (indexStart * mult)])

/-! ## `setSize` -/

/-- JavaScript `ToInt32` (`width | 0` on an integral number): wrap into
`[-2^31, 2^31)`. -/
def toInt32 (x : Int) : Int :=
  (x + 2 ^ 31) % 2 ^ 32 - 2 ^ 31

/-- `Engine.setSize`.  Returns the new state and whether the resize
observable was notified. -/
def setSize (width height : Int) (s : EngineState) : EngineState × Bool :=
  match s.renderingCanvas with
  | none => (s, false)
  | some canvas =>
    let width := toInt32 width
    let height := toInt32 height
    if canvas.width = width ∧ canvas.height = height then (s, false)
    else
      let scenes := s.scenes.map fun sc =>
        { cameras := sc.cameras.map fun _ => { currentRenderId := 0 } }
      ({ s with
          renderingCanvas := some { width := width, height := height }
          scenes := scenes },
        s.resizeHasObservers)

/-! ## Power-of-two sizing (`FloorPOT`, `CeilingPOT`, `NearestPOT`,
`GetExponentOfTwo`, and the `potWidth`/`potHeight` computation of
`_prepareWebGLTexture`).

The source operates on 32-bit integers; texture dimensions lie in
`[1, 2^31)`, where the JS `|`, `>>` and `--` coincide with the `Nat`
operations used here. -/

/-- `Engine.FloorPOT`. -/
def FloorPOT (x : Nat) : Nat :=
  let x := x ||| (x >>> 1)
  let x := x ||| (x >>> 2)
  let x := x ||| (x >>> 4)
  let x := x ||| (x >>> 8)
  let x := x ||| (x >>> 16)
  x - (x >>> 1)

/-- `Engine.CeilingPOT`. -/
def CeilingPOT (x : Nat) : Nat :=
  let x := x - 1
  let x := x ||| (x >>> 1)
  let x := x ||| (x >>> 2)
  let x := x ||| (x >>> 4)
  let x := x ||| (x >>> 8)
  let x := x ||| (x >>> 16)
  x + 1

/-- The five-step or-shift cascade shared by the bodies of `FloorPOT` and
`CeilingPOT` (it fills every bit position below the top set bit). -/
def potSmear (x : Nat) : Nat :=
  let x := x ||| (x >>> 1)
  let x := x ||| (x >>> 2)
  let x := x ||| (x >>> 4)
  let x := x ||| (x >>> 8)
  let x := x ||| (x >>> 16)
  x

/-- `Engine.NearestPOT`.  The comparison `(c - x) > (x - f)` is over JS
numbers, hence over `Int`. -/
def NearestPOT (x : Nat) : Nat :=
  let c := CeilingPOT x
  let f := FloorPOT x
  if (c : Int) - x > (x : Int) - f then f else c

/-- `Engine.GetExponentOfTwo`. -/
def GetExponentOfTwo (value max : Nat) (mode : Nat := SCALEMODE_NEAREST) : Nat :=
  let pot :=
    if mode = SCALEMODE_FLOOR then FloorPOT value
    else if mode = SCALEMODE_NEAREST then NearestPOT value
    else CeilingPOT value
  Nat.min pot max

/-- The `potWidth`/`potHeight` computation at the top of
`Engine._prepareWebGLTexture`:
`Math.min(maxTextureSize, needPOTTextures ? GetExponentOfTwo(dim, maxTextureSize) : dim)`. -/
def preparePotDimension (dim maxTextureSize : Nat) (needPOTTextures : Bool) : Nat :=
  Nat.min maxTextureSize
    (if needPOTTextures then GetExponentOfTwo dim maxTextureSize else dim)

/-! ## Context-restore recovery (`_onContextRestored`) -/

/-- One step performed by the `_onContextRestored` handler (the body of its
`setTimeout` callback), in the order the source executes them. -/
inductive RestoreStep where
  | initGLContext
  | rebuildEffects
  | rebuildInternalTextures
  | rebuildBuffers
  | wipeCachesStep (bruteForce : Bool)
  | logWarn (message : String)
  | notifyContextRestored
  | setContextWasLost (value : Bool)
  deriving DecidableEq, Repr

/-- The ordered step trace of `Engine._onContextRestored`. -/
def onContextRestoredSteps : List RestoreStep :=
  [ .initGLContext,
    .rebuildEffects,
    .rebuildInternalTextures,
    .rebuildBuffers,
    .wipeCachesStep true,
    .logWarn "WebGL context successfully restored.",
    .notifyContextRestored,
    .setContextWasLost false ]

/-- Index of the first occurrence of a step in the restore trace (length of
the trace when absent). -/
def restoreIndex (step : RestoreStep) : Nat :=
  (onContextRestoredSteps.findIdx fun x => x = step)

/-! ## Texture-load fallback chain (`createTexture` / `onInternalError`)

The asynchronous environment of a single `createTexture` request: which
loaders accept it, their URL transforms and fallback URLs, the outcome of
each actual load attempt, and the process-wide fallback-texture
configuration (`EngineStore.UseFallbackTexture` / `FallbackTexture`). -/

structure TextureLoadEnv where
  /-- `Engine._TextureLoaders`, in registration order, as loader ids. -/
  loaders : List Nat
  /-- `loader.canLoad(...)` for this request; the second argument is whether
  a fallback texture handle is being reused (non-null `fallback`). -/
  canLoad : Nat → Bool → Bool
  /-- `loader.transformUrl(url, textureFormatInUse)`. -/
  transformUrl : Nat → String → String
  /-- `loader.getFallbackTextureUrl(url, textureFormatInUse)`. -/
  fallbackUrl : Nat → String → Option String
  /-- Outcome of attempting the load of a (transformed) URL through the given
  loader (`none` = the texture reaches readiness, `some msg` = the attempt
  fails and `onInternalError` is invoked with `msg`). -/
  loadResult : String → Option Nat → Option String
  /-- `EngineStore.UseFallbackTexture`. -/
  useFallbackTexture : Bool
  /-- `EngineStore.FallbackTexture`. -/
  fallbackTexture : String

/-- The loader-selection loop at the top of `Engine.createTexture`: the
first registered loader that is not excluded and whose `canLoad` accepts
the request. -/
def selectLoader (env : TextureLoadEnv) (fallbackPresent : Bool)
    (excludeLoaders : List Nat) : Option Nat :=
  env.loaders.find? fun l =>
    decide (l ∉ excludeLoaders) && env.canLoad l fallbackPresent

/-- The URL actually attempted: `loader.transformUrl(url, ...)` when a
loader was selected, the original URL otherwise. -/
def attemptUrl (env : TextureLoadEnv) (urlArg : String) (fallbackPresent : Bool)
    (excludeLoaders : List Nat) : String :=
  match selectLoader env fallbackPresent excludeLoaders with
  | some l => env.transformUrl l urlArg
  | none => urlArg

/-- The retry chain of `Engine.createTexture`: loader selection, the load
attempt, and the `onInternalError` fallback logic.  Returns the list of
messages passed to the caller's `onError` callback, in order.  `fuel`
bounds the recursion depth (the source recurses through `createTexture`
itself; an exhausted fuel stands for a chain that is still retrying). -/
def createTextureChain (env : TextureLoadEnv) : Nat → String → Bool → List Nat →
    List String
  | 0, _, _, _ => []
  | fuel + 1, urlArg, fallbackPresent, excludeLoaders =>
    let loader := selectLoader env fallbackPresent excludeLoaders
    let url := attemptUrl env urlArg fallbackPresent excludeLoaders
    match env.loadResult url loader with
    | none => []
    | some message =>
      let viaLoaderFallback :=
        match loader with
        | some l => (env.fallbackUrl l url).isSome
        | none => false
      if viaLoaderFallback then
        createTextureChain env fuel urlArg true
          (excludeLoaders ++ [loader.getD 0])
      else if env.useFallbackTexture then
        createTextureChain env fuel env.fallbackTexture true []
      else
        [if message = "" then "Unknown error" else message]

/-- A concrete engine state matching the field initialisations of the
`Engine` class: empty caches, active channel `0`, current texture channel
`-1`, zero viewport cache, one scene with one camera, an 800×600 canvas and
a registered resize observer. -/
def initialState : EngineState where
  boundTexturesCache := fun _ => none
  activeChannel := 0
  currentTextureChannel := -1
  assocChannel := fun _ => -1
  multiview := fun _ => false
  boundUniformState := fun _ => -1
  currentEffect := none
  currentProgram := none
  viewportCached := ⟨0, 0, 0, 0⟩
  depthCullingState := 1
  depthFunc := LEQUAL
  depthMask := true
  stencilState := 1
  alphaState := ⟨false, none, 1⟩
  alphaMode := ALPHA_DISABLE
  unpackFlipYCached := none
  currentBoundBuffer := fun _ => none
  cachedVertexBuffers := none
  cachedIndexBuffer := none
  cachedEffectForVertexBuffers := none
  cachedVertexArrayObject := none
  vaoRecordInProgress := false
  uintIndicesCurrentlySet := false
  preventCacheWipeBetweenFrames := false
  drawCalls := 0
  contextWasLost := false
  renderingCanvas := some ⟨800, 600⟩
  scenes := [⟨[⟨5⟩]⟩]
  resizeHasObservers := true

/-- The `gl.bindBuffer` calls for a given target inside a trace. -/
def bindBufferCalls (target : Nat) (l : List GLCall) : List GLCall :=
  l.filter fun c =>
    match c with
    | .bindBuffer tgt _ => tgt = target
    | _ => false

/-- `initialState` with a cached index buffer, a bound vertex array object,
a bound array buffer and a current program: a state in which a light wipe's
effect on the binding caches is visible. -/
def lightWipeState : EngineState :=
  { initialState with
      cachedIndexBuffer := some 7
      cachedVertexArrayObject := some 3
      currentBoundBuffer := updN (fun _ => none) ARRAY_BUFFER (some 5)
      currentProgram := some 11
      stencilState := 42
      depthCullingState := 43
      alphaState := ⟨true, none, 44⟩ }

/-- `initialState` with a non-default alpha mode in effect before a wipe:
`_alphaMode` is `ALPHA_COMBINE` and the deferred alpha state holds the
matching blend parameters. -/
def alphaModeState : EngineState :=
  { initialState with
      alphaMode := ALPHA_COMBINE
      alphaState :=
        ⟨true, some (GL_SRC_ALPHA, GL_ONE_MINUS_SRC_ALPHA, GL_ONE, GL_ONE), 0⟩ }

/-- A load environment with no applicable loader, no loader fallback URL and
the process-wide fallback texture disabled, where every load attempt fails
with "HTTP 404". -/
def noFallbackEnv : TextureLoadEnv where
  loaders := []
  canLoad := fun _ _ => false
  transformUrl := fun _ u => u
  fallbackUrl := fun _ _ => none
  loadResult := fun _ _ => some "HTTP 404"
  useFallbackTexture := false
  fallbackTexture := ""

/-- A load environment with one loader that accepts the request and exposes
a fallback URL; the loader-path attempt fails with "original failure" and
the retry without the loader fails with "fallback failure"; the
process-wide fallback texture is disabled. -/
def loaderFallbackEnv : TextureLoadEnv where
  loaders := [0]
  canLoad := fun _ _ => true
  transformUrl := fun _ u => u
  fallbackUrl := fun _ _ => some "alt.ktx"
  loadResult := fun _ loader =>
    match loader with
    | some _ => some "original failure"
    | none => some "fallback failure"
  useFallbackTexture := false
  fallbackTexture := ""

/-! ## Texture-binding lemmas -/

@[simp] theorem actT_cache (s : EngineState) :
    (activateCurrentTexture s).1.boundTexturesCache = s.boundTexturesCache := by
  unfold activateCurrentTexture; split <;> rfl

@[simp] theorem actT_active (s : EngineState) :
    (activateCurrentTexture s).1.activeChannel = s.activeChannel := by
  unfold activateCurrentTexture; split <;> rfl

@[simp] theorem actT_multiview (s : EngineState) :
    (activateCurrentTexture s).1.multiview = s.multiview := by
  unfold activateCurrentTexture; split <;> rfl

@[simp] theorem actT_assoc (s : EngineState) :
    (activateCurrentTexture s).1.assocChannel = s.assocChannel := by
  unfold activateCurrentTexture; split <;> rfl

@[simp] theorem actT_calls (s : EngineState) :
    bindTextureCalls (activateCurrentTexture s).2 = [] := by
  unfold activateCurrentTexture; split <;> rfl

@[simp] theorem samp_cache (a b : Int) (s : EngineState) :
    (bindSamplerUniformToChannel a b s).1.boundTexturesCache =
      s.boundTexturesCache := by
  unfold bindSamplerUniformToChannel; split <;> rfl

@[simp] theorem samp_active (a b : Int) (s : EngineState) :
    (bindSamplerUniformToChannel a b s).1.activeChannel = s.activeChannel := by
  unfold bindSamplerUniformToChannel; split <;> rfl

@[simp] theorem samp_multiview (a b : Int) (s : EngineState) :
    (bindSamplerUniformToChannel a b s).1.multiview = s.multiview := by
  unfold bindSamplerUniformToChannel; split <;> rfl

@[simp] theorem samp_calls (a b : Int) (s : EngineState) :
    bindTextureCalls (bindSamplerUniformToChannel a b s).2 = [] := by
  unfold bindSamplerUniformToChannel; split <;> rfl

@[simp] theorem bindTextureCalls_append (a b : List GLCall) :
    bindTextureCalls (a ++ b) = bindTextureCalls a ++ bindTextureCalls b := by
  simp [bindTextureCalls]

@[simp] theorem bindTextureCalls_nil : bindTextureCalls [] = [] := rfl

@[simp] theorem bindTextureCalls_cons_bind (target : Nat) (tex : Option Nat)
    (mv : Bool) (l : List GLCall) :
    bindTextureCalls (GLCall.bindTexture target tex mv :: l) =
      GLCall.bindTexture target tex mv :: bindTextureCalls l := by
  simp [bindTextureCalls]

@[simp] theorem bindTextureCalls_single (target : Nat) (tex : Option Nat)
    (mv : Bool) :
    bindTextureCalls [GLCall.bindTexture target tex mv] =
      [GLCall.bindTexture target tex mv] := rfl

theorem bindTexture_cache_state (s : EngineState) (u : Int) (t : Nat) :
    (bindTexture u (some t) s).1.boundTexturesCache u = some t ∧
    (bindTexture u (some t) s).1.activeChannel = u ∧
    (bindTexture u (some t) s).1.multiview = s.multiview := by
  unfold bindTexture bindTextureDirectly
  simp only [actT_cache, actT_active, actT_multiview, actT_assoc, actT_calls,
    samp_cache, samp_active, samp_multiview, samp_calls, updI, updN]
  split_ifs <;> simp_all [updI, updN]

theorem bindTexture_noop_of_cached (s : EngineState) (u : Int) (t : Nat)
    (h : s.boundTexturesCache u = some t) :
    bindTextureCalls (bindTexture u (some t) s).2 = [] := by
  unfold bindTexture bindTextureDirectly
  simp only [actT_cache, actT_active, actT_multiview, actT_assoc, actT_calls,
    samp_cache, samp_active, samp_multiview, samp_calls, bindTextureCalls_append,
    updI, updN]
  split_ifs <;> simp_all

theorem bindTexture_single_of_not_cached (s : EngineState) (u : Int) (t2 : Nat)
    (h : s.boundTexturesCache u ≠ some t2) :
    bindTextureCalls (bindTexture u (some t2) s).2 =
      [GLCall.bindTexture TEXTURE_2D (some t2) (s.multiview t2)] := by
  unfold bindTexture bindTextureDirectly
  simp only [actT_cache, actT_active, actT_multiview, actT_assoc, actT_calls,
    samp_cache, samp_active, samp_multiview, samp_calls, bindTextureCalls_append,
    updI, updN]
  split_ifs <;> simp_all

/-- C1: after `_bindTexture(u, T)` has made `T` the cached binding for unit
`u`, an immediately following `_bindTexture(u, T)` issues no underlying
`gl.bindTexture` call, and a `_bindTexture(u, T2)` with `T2 ≠ T` issues
exactly one underlying `gl.bindTexture` call, for `T2`. -/
theorem idempotent_texture_binding (s : EngineState) (u : Int) (t t2 : Nat)
    (hne : t ≠ t2) :
    bindTextureCalls (bindTexture u (some t) ((bindTexture u (some t) s).1)).2 = []
    ∧ bindTextureCalls (bindTexture u (some t2) ((bindTexture u (some t) s).1)).2 =
      [GLCall.bindTexture TEXTURE_2D (some t2)
        (((bindTexture u (some t) s).1).multiview t2)] := by
  obtain ⟨h1, _h2, _h3⟩ := bindTexture_cache_state s u t
  refine ⟨bindTexture_noop_of_cached _ u t h1,
    bindTexture_single_of_not_cached _ u t2 ?_⟩
  rw [h1]
  simp [hne]

/-! ## Buffer-release lemmas -/

@[simp] theorem deleteBufferCalls_nil : deleteBufferCalls [] = [] := rfl

@[simp] theorem deleteBufferCalls_append (a b : List GLCall) :
    deleteBufferCalls (a ++ b) = deleteBufferCalls a ++ deleteBufferCalls b := by
  simp [deleteBufferCalls]

@[simp] theorem releaseBuffer_fst (b : DataBuffer) :
    (releaseBuffer b).1.1 = { b with references := b.references - 1 } := by
  unfold releaseBuffer; dsimp only; split <;> rfl

@[simp] theorem releaseBuffer_deletes (b : DataBuffer) :
    deleteBufferCalls (releaseBuffer b).1.2 =
      if b.references - 1 = 0 then [.deleteBuffer b.id] else [] := by
  unfold releaseBuffer
  dsimp only
  split_ifs with h <;> simp_all [deleteBufferCalls]

theorem releaseN_references (n : Nat) (b : DataBuffer) :
    (releaseN n b).1.references = b.references - n := by
  induction n generalizing b with
  | zero => simp [releaseN]
  | succ n ih =>
    unfold releaseN
    rw [ih]
    simp only [releaseBuffer_fst]
    push_cast
    ring

theorem releaseN_deleteCount (n : Nat) (b : DataBuffer) :
    (deleteBufferCalls (releaseN n b).2).length =
      if 1 ≤ b.references ∧ b.references ≤ (n : Int) then 1 else 0 := by
  induction n generalizing b with
  | zero =>
    simp only [releaseN, deleteBufferCalls_nil, List.length_nil]
    split_ifs with h
    · omega
    · rfl
  | succ n ih =>
    unfold releaseN
    simp only [deleteBufferCalls_append, List.length_append, ih,
      releaseBuffer_fst, releaseBuffer_deletes]
    split_ifs <;> simp_all <;> omega

/-- C5: a buffer whose reference count is `N` (created at 1 with `N - 1`
additional retains) is destroyed by exactly one `gl.deleteBuffer` over `N`
`_releaseBuffer` calls, never earlier, and the count reaches exactly zero on
the `N`th release. -/
theorem release_destroys_on_nth (b : DataBuffer) (N : Nat)
    (href : b.references = (N : Int)) (hN : 1 ≤ N) :
    (deleteBufferCalls (releaseN N b).2).length = 1
    ∧ (∀ M, M < N → (deleteBufferCalls (releaseN M b).2).length = 0)
    ∧ (releaseN N b).1.references = 0 := by
  refine ⟨?_, ?_, ?_⟩
  · rw [releaseN_deleteCount]
    split_ifs with h
    · rfl
    · rw [href] at h
      exfalso
      apply h
      constructor <;> omega
  · intro M hM
    rw [releaseN_deleteCount]
    split_ifs with h
    · rw [href] at h
      omega
    · rfl
  · rw [releaseN_references, href]
    ring

theorem release_destroys_on_nth_witness :
    (⟨7, 3, false⟩ : DataBuffer).references = ((3 : Nat) : Int) ∧ 1 ≤ 3 ∧
    ((deleteBufferCalls (releaseN 3 ⟨7, 3, false⟩).2).length = 1
      ∧ (∀ M, M < 3 → (deleteBufferCalls (releaseN M ⟨7, 3, false⟩).2).length = 0)
      ∧ (releaseN 3 ⟨7, 3, false⟩).1.references = 0) :=
  ⟨by decide, by decide, release_destroys_on_nth ⟨7, 3, false⟩ 3 (by decide) (by decide)⟩

/-- C10: over any number of `_releaseBuffer` calls, `gl.deleteBuffer` is
issued at most once for a buffer (exactly when the count passes through
zero: once past it, the count is negative and never zero again), and each
release decrements the count by one. -/
theorem release_deletes_at_most_once (b : DataBuffer) (M : Nat) :
    (deleteBufferCalls (releaseN M b).2).length ≤ 1
    ∧ (deleteBufferCalls (releaseN M b).2).length =
        (if 1 ≤ b.references ∧ b.references ≤ (M : Int) then 1 else 0)
    ∧ (releaseN M b).1.references = b.references - M := by
  refine ⟨?_, releaseN_deleteCount M b, releaseN_references M b⟩
  rw [releaseN_deleteCount]
  split_ifs <;> omega

/-! ## Context-restore ordering -/

/-- C3: the `_onContextRestored` handler performs exactly the five recovery
steps, once each, in the fixed order context → effects → textures →
buffers → full cache wipe, and only after all five does it notify the
context-restored observers and clear the context-lost flag. -/
theorem context_restore_fixed_order :
    restoreIndex .initGLContext < restoreIndex .rebuildEffects
    ∧ restoreIndex .rebuildEffects < restoreIndex .rebuildInternalTextures
    ∧ restoreIndex .rebuildInternalTextures < restoreIndex .rebuildBuffers
    ∧ restoreIndex .rebuildBuffers < restoreIndex (.wipeCachesStep true)
    ∧ restoreIndex (.wipeCachesStep true) < restoreIndex .notifyContextRestored
    ∧ restoreIndex .notifyContextRestored < restoreIndex (.setContextWasLost false)
    ∧ onContextRestoredSteps.count .initGLContext = 1
    ∧ onContextRestoredSteps.count .rebuildEffects = 1
    ∧ onContextRestoredSteps.count .rebuildInternalTextures = 1
    ∧ onContextRestoredSteps.count .rebuildBuffers = 1
    ∧ onContextRestoredSteps.count (.wipeCachesStep true) = 1
    ∧ onContextRestoredSteps.count (.wipeCachesStep false) = 0
    ∧ onContextRestoredSteps.count .notifyContextRestored = 1
    ∧ onContextRestoredSteps.count (.setContextWasLost false) = 1
    ∧ onContextRestoredSteps.length = 8 := by
  decide

/-! ## Draw dispatch -/

/-- C8: every `drawElementsType` call applies the cached
depth/stencil/alpha state exactly once (one `applyStates`, pushing the
three state objects once each, before the draw) and increments the
draw-call counter by exactly 1, whatever `instancesCount` is (absent, zero
or nonzero). -/
theorem drawElementsType_single_apply (s : EngineState) (fillMode : Nat)
    (indexStart indexCount : Int) (instancesCount : Option Int) :
    applyCalls (drawElementsType fillMode indexStart indexCount instancesCount s).2 =
      [.applyDepthCulling, .applyStencil, .applyAlpha]
    ∧ (drawElementsType fillMode indexStart indexCount instancesCount s).1.drawCalls =
      s.drawCalls + 1 := by
  unfold drawElementsType applyStates
  split_ifs <;> simp [applyCalls, List.filter]

/-! ## `setSize` lemmas -/

theorem setSize_noop_of_eq (s : EngineState) (c : Canvas) (w h : Int)
    (hc : s.renderingCanvas = some c) (hw : c.width = toInt32 w)
    (hh : c.height = toInt32 h) :
    setSize w h s = (s, false) := by
  unfold setSize
  rw [hc]
  simp [hw, hh]

theorem setSize_canvas (s : EngineState) (c : Canvas) (w h : Int)
    (hc : s.renderingCanvas = some c) :
    ∃ cc, (setSize w h s).1.renderingCanvas = some cc
      ∧ cc.width = toInt32 w ∧ cc.height = toInt32 h := by
  unfold setSize
  rw [hc]
  dsimp only
  split_ifs with hcond
  · exact ⟨c, hc, hcond.1, hcond.2⟩
  · exact ⟨⟨toInt32 w, toInt32 h⟩, rfl, rfl, rfl⟩

/-- C9: when the truncated dimensions equal the canvas's current
dimensions, `setSize` changes nothing (no canvas mutation, no per-camera
render-id reset, no resize event); in particular the second of two
identical `setSize` calls is always such a no-op. -/
theorem setSize_noop_when_unchanged (s : EngineState) (c : Canvas) (w h : Int)
    (hc : s.renderingCanvas = some c) (hw : toInt32 w = c.width)
    (hh : toInt32 h = c.height) :
    setSize w h s = (s, false)
    ∧ ∀ w2 h2 : Int,
        setSize w2 h2 ((setSize w2 h2 s).1) = ((setSize w2 h2 s).1, false) := by
  constructor
  · exact setSize_noop_of_eq s c w h hc hw.symm hh.symm
  · intro w2 h2
    obtain ⟨cc, hcc, hccw, hcch⟩ := setSize_canvas s c w2 h2 hc
    exact setSize_noop_of_eq _ cc w2 h2 hcc hccw hcch

theorem setSize_noop_when_unchanged_witness :
    initialState.renderingCanvas = some ⟨800, 600⟩
    ∧ toInt32 800 = (⟨800, 600⟩ : Canvas).width
    ∧ toInt32 600 = (⟨800, 600⟩ : Canvas).height
    ∧ (setSize 800 600 initialState = (initialState, false)
      ∧ ∀ w2 h2 : Int,
          setSize w2 h2 ((setSize w2 h2 initialState).1) =
            ((setSize w2 h2 initialState).1, false)) :=
  ⟨rfl, by decide, by decide,
    setSize_noop_when_unchanged initialState ⟨800, 600⟩ 800 600 rfl (by decide)
      (by decide)⟩

/-! ## Wipe-cache lemmas -/

@[simp] theorem unbindVAO_fst (s : EngineState) :
    (unbindVertexArrayObject s).1 = { s with cachedVertexArrayObject := none } := by
  unfold unbindVertexArrayObject
  split_ifs with h
  · rw [← h]
  · rfl

@[simp] theorem bindBuffer_fst (buffer : Option Nat) (target : Nat)
    (s : EngineState) :
    (bindBuffer buffer target s).1 =
      { s with currentBoundBuffer := updN s.currentBoundBuffer target buffer } := by
  unfold bindBuffer
  split_ifs with h
  · rfl
  · push_neg at h
    have hfun : updN s.currentBoundBuffer target buffer = s.currentBoundBuffer := by
      funext i
      unfold updN
      split_ifs with hi
      · rw [hi]
        exact h.2.symm
      · rfl
    rw [hfun]

theorem wipe_full_fields (s : EngineState) :
    ((wipeCaches true s).1.boundTexturesCache = fun _ => none)
    ∧ (wipeCaches true s).1.viewportCached = ⟨0, 0, 0, 0⟩
    ∧ (wipeCaches true s).1.currentProgram = none
    ∧ (wipeCaches true s).1.currentEffect = none
    ∧ (wipeCaches true s).1.cachedIndexBuffer = none
    ∧ (wipeCaches true s).1.currentBoundBuffer ARRAY_BUFFER = none
    ∧ (wipeCaches true s).1.currentBoundBuffer ELEMENT_ARRAY_BUFFER = none
    ∧ (wipeCaches true s).1.cachedVertexArrayObject = none
    ∧ (wipeCaches true s).1.multiview = s.multiview
    ∧ (wipeCaches true s).1.vaoRecordInProgress = s.vaoRecordInProgress
    ∧ (wipeCaches true s).1.stencilState = stateResetValue
    ∧ (wipeCaches true s).1.depthCullingState = stateResetValue
    ∧ (wipeCaches true s).1.alphaState = alphaStateReset
    ∧ (wipeCaches true s).1.alphaMode = s.alphaMode := by
  unfold wipeCaches resetVertexBufferBinding bindArrayBuffer bindIndexBuffer
    resetTextureCache setDepthFunctionToLessOrEqual
  simp only [bindBuffer_fst, unbindVAO_fst]
  split_ifs <;> simp_all [updN, ARRAY_BUFFER, ELEMENT_ARRAY_BUFFER]

/-- C2 counterexample, two tracked slots.  Viewport: the full wipe resets
the viewport cache to the concrete value `(0,0,0,0)` rather than an
unknown sentinel, so the very next `_viewport(0,0,0,0)` call — whose
requested value equals the pre-wipe cached value — is suppressed (zero
forwarded calls) instead of being forwarded exactly once.  Alpha: the wipe
resets the deferred `_alphaState` object but never resets the engine's
`_alphaMode` mirror, so the very next `setAlphaMode(ALPHA_COMBINE)` after
wiping a state whose pre-wipe mode was `ALPHA_COMBINE` is a complete
no-op: the requested mode's blend parameters are never written and the
reset (blending-disabled) state is what the next `applyStates` pushes. -/
theorem full_wipe_not_unconditionally_forwarded :
    ((viewport 0 0 0 0 ((wipeCaches true initialState).1)).2 = []
      ∧ initialState.viewportCached = ⟨0, 0, 0, 0⟩)
    ∧ (alphaModeState.alphaMode = ALPHA_COMBINE
      ∧ setAlphaMode ALPHA_COMBINE false ((wipeCaches true alphaModeState).1) =
          (wipeCaches true alphaModeState).1
      ∧ ((wipeCaches true alphaModeState).1).alphaState = alphaStateReset
      ∧ alphaStateReset.alphaBlend = false) := by
  exact ⟨⟨rfl, rfl⟩, ⟨rfl, rfl, rfl, rfl⟩⟩

/-- C2 amended: after a full wipe, the next state-setting call for the
texture-binding, viewport, array-buffer, index-buffer, program and effect
slots forwards to the context exactly once — regardless of the pre-wipe
cached value — provided the requested value differs from the wipe's own
reset value for that slot (a null binding, the zero viewport); the
depth-culling, stencil and alpha state objects themselves are reset
wholesale by the wipe, so the next `applyStates` pushes fresh state; but
the alpha slot's `_alphaMode` mirror survives the wipe, so a
`setAlphaMode` request equal to the pre-wipe mode is suppressed entirely
(the counterexample), while a request for any other mode does take
effect. -/
theorem full_wipe_next_call_forwards (s : EngineState) :
    (∀ u : Int, ∀ t : Nat,
      bindTextureCalls (bindTexture u (some t) ((wipeCaches true s).1)).2 =
        [GLCall.bindTexture TEXTURE_2D (some t) (((wipeCaches true s).1).multiview t)])
    ∧ (∀ x y w h : Int, ¬(x = 0 ∧ y = 0 ∧ w = 0 ∧ h = 0) →
        (viewport x y w h ((wipeCaches true s).1)).2 = [.viewport x y w h])
    ∧ (∀ b : Nat,
        bindBufferCalls ARRAY_BUFFER
            (bindArrayBuffer (some b) ((wipeCaches true s).1)).2 =
          [.bindBuffer ARRAY_BUFFER (some b)])
    ∧ (∀ bd : DataBuffer,
        bindBufferCalls ELEMENT_ARRAY_BUFFER
            (bindIndexBufferWithCache (some bd) ((wipeCaches true s).1)).2 =
          [.bindBuffer ELEMENT_ARRAY_BUFFER (some bd.id)])
    ∧ (∀ p : Nat, (setProgram p ((wipeCaches true s).1)).2 = [.useProgram p])
    ∧ (∀ e : Effect,
        (enableEffect (some e) ((wipeCaches true s).1)).2 = [.useProgram e.program])
    ∧ ((wipeCaches true s).1.stencilState = stateResetValue
      ∧ (wipeCaches true s).1.depthCullingState = stateResetValue
      ∧ (wipeCaches true s).1.alphaState = alphaStateReset)
    ∧ (wipeCaches true s).1.alphaMode = s.alphaMode
    ∧ (∀ m : Nat, ∀ ndwc : Bool, s.alphaMode = m →
        setAlphaMode m ndwc ((wipeCaches true s).1) = (wipeCaches true s).1)
    ∧ (∀ m : Nat, ∀ ndwc : Bool, s.alphaMode ≠ m →
        (setAlphaMode m ndwc ((wipeCaches true s).1)).alphaMode = m) := by
  obtain ⟨hcache, hvp, hprog, heff, hidx, harr, helt, hvao, _hmv, _hvr,
    hsten, hdcs, halpha, hmode⟩ := wipe_full_fields s
  refine ⟨?_, ?_, ?_, ?_, ?_, ?_, ⟨hsten, hdcs, halpha⟩, hmode, ?_, ?_⟩
  · intro u t
    apply bindTexture_single_of_not_cached
    rw [hcache]
    simp
  · intro x y w h hne
    unfold viewport
    rw [hvp]
    rw [if_pos]
    simp only [ne_eq]
    by_contra hc
    push_neg at hc
    exact hne ⟨hc.1, hc.2.1, hc.2.2.1, hc.2.2.2⟩
  · intro b
    unfold bindArrayBuffer bindBuffer
    simp only [unbindVAO_fst]
    split_ifs with h1 h2 h2 <;>
      simp_all [bindBufferCalls, unbindVertexArrayObject]
  · intro bd
    unfold bindIndexBufferWithCache bindIndexBuffer bindBuffer
    rw [hidx]
    simp only [unbindVAO_fst]
    split_ifs with h1 h2 h3 h3 <;>
      simp_all [bindBufferCalls, unbindVertexArrayObject]
  · intro p
    unfold setProgram
    rw [hprog]
    simp
  · intro e
    unfold enableEffect bindSamplers setProgram
    simp [heff, hprog]
  · intro m ndwc hm
    unfold setAlphaMode
    rw [if_pos (by rw [hmode]; exact hm)]
  · intro m ndwc hm
    unfold setAlphaMode
    rw [if_neg (by rw [hmode]; exact hm)]

theorem full_wipe_next_call_forwards_witness :
    (¬((1 : Int) = 0 ∧ (2 : Int) = 0 ∧ (3 : Int) = 0 ∧ (4 : Int) = 0))
    ∧ initialState.alphaMode = ALPHA_DISABLE
    ∧ initialState.alphaMode ≠ ALPHA_COMBINE
    ∧ bindTextureCalls (bindTexture 0 (some 4) ((wipeCaches true initialState).1)).2 =
        [GLCall.bindTexture TEXTURE_2D (some 4)
          (((wipeCaches true initialState).1).multiview 4)]
    ∧ (viewport 1 2 3 4 ((wipeCaches true initialState).1)).2 = [.viewport 1 2 3 4]
    ∧ bindBufferCalls ARRAY_BUFFER
        (bindArrayBuffer (some 5) ((wipeCaches true initialState).1)).2 =
        [.bindBuffer ARRAY_BUFFER (some 5)]
    ∧ bindBufferCalls ELEMENT_ARRAY_BUFFER
        (bindIndexBufferWithCache (some ⟨6, 1, true⟩) ((wipeCaches true initialState).1)).2 =
        [.bindBuffer ELEMENT_ARRAY_BUFFER (some 6)]
    ∧ (setProgram 9 ((wipeCaches true initialState).1)).2 = [.useProgram 9]
    ∧ (enableEffect (some ⟨21, 22, [some 1, none]⟩) ((wipeCaches true initialState).1)).2 =
        [.useProgram 22]
    ∧ ((wipeCaches true initialState).1.stencilState = stateResetValue
      ∧ (wipeCaches true initialState).1.depthCullingState = stateResetValue
      ∧ (wipeCaches true initialState).1.alphaState = alphaStateReset)
    ∧ (wipeCaches true initialState).1.alphaMode = initialState.alphaMode
    ∧ setAlphaMode ALPHA_DISABLE false ((wipeCaches true initialState).1) =
        (wipeCaches true initialState).1
    ∧ (setAlphaMode ALPHA_COMBINE false ((wipeCaches true initialState).1)).alphaMode =
        ALPHA_COMBINE :=
  ⟨by decide, rfl, by decide,
    (full_wipe_next_call_forwards initialState).1 0 4,
    (full_wipe_next_call_forwards initialState).2.1 1 2 3 4 (by decide),
    (full_wipe_next_call_forwards initialState).2.2.1 5,
    (full_wipe_next_call_forwards initialState).2.2.2.1 ⟨6, 1, true⟩,
    (full_wipe_next_call_forwards initialState).2.2.2.2.1 9,
    (full_wipe_next_call_forwards initialState).2.2.2.2.2.1 ⟨21, 22, [some 1, none]⟩,
    (full_wipe_next_call_forwards initialState).2.2.2.2.2.2.1,
    (full_wipe_next_call_forwards initialState).2.2.2.2.2.2.2.1,
    (full_wipe_next_call_forwards initialState).2.2.2.2.2.2.2.2.1 ALPHA_DISABLE
      false rfl,
    (full_wipe_next_call_forwards initialState).2.2.2.2.2.2.2.2.2 ALPHA_COMBINE
      false (by decide)⟩

/-- C6 counterexample: a light wipe (`wipeCaches()` without the brute-force
flag) does not leave the index-buffer binding cache or the vertex-array-
object binding unchanged — it clears both. -/
theorem light_wipe_clears_buffer_caches :
    lightWipeState.cachedIndexBuffer = some 7
    ∧ (wipeCaches false lightWipeState).1.cachedIndexBuffer = none
    ∧ lightWipeState.cachedVertexArrayObject = some 3
    ∧ (wipeCaches false lightWipeState).1.cachedVertexArrayObject = none :=
  ⟨rfl, rfl, rfl, rfl⟩

/-- C6 amended: a light wipe (when `preventCacheWipeBetweenFrames` does not
suppress it) drops the current effect, the viewport cache, *and* the
vertex/index-buffer binding caches, the cached effect-for-vertex-buffers,
the vertex-array-object binding and the array/element buffer-binding
mirrors; it leaves the per-unit texture bindings, the current program, the
depth/stencil/alpha state, the depth function, the unpack-flip-Y cache and
the index-format flag unchanged. -/
theorem light_wipe_effect (s : EngineState)
    (hp : s.preventCacheWipeBetweenFrames = false) :
    (wipeCaches false s).1.currentEffect = none
    ∧ (wipeCaches false s).1.viewportCached = ⟨0, 0, 0, 0⟩
    ∧ (wipeCaches false s).1.cachedVertexBuffers = none
    ∧ (wipeCaches false s).1.cachedIndexBuffer = none
    ∧ (wipeCaches false s).1.cachedEffectForVertexBuffers = none
    ∧ (wipeCaches false s).1.cachedVertexArrayObject = none
    ∧ (wipeCaches false s).1.currentBoundBuffer ARRAY_BUFFER = none
    ∧ (wipeCaches false s).1.currentBoundBuffer ELEMENT_ARRAY_BUFFER = none
    ∧ (wipeCaches false s).1.boundTexturesCache = s.boundTexturesCache
    ∧ (wipeCaches false s).1.currentTextureChannel = s.currentTextureChannel
    ∧ (wipeCaches false s).1.currentProgram = s.currentProgram
    ∧ (wipeCaches false s).1.depthCullingState = s.depthCullingState
    ∧ (wipeCaches false s).1.depthFunc = s.depthFunc
    ∧ (wipeCaches false s).1.stencilState = s.stencilState
    ∧ (wipeCaches false s).1.alphaState = s.alphaState
    ∧ (wipeCaches false s).1.unpackFlipYCached = s.unpackFlipYCached
    ∧ (wipeCaches false s).1.uintIndicesCurrentlySet = s.uintIndicesCurrentlySet := by
  unfold wipeCaches resetVertexBufferBinding bindArrayBuffer bindIndexBuffer
  simp only [bindBuffer_fst, unbindVAO_fst, hp]
  split_ifs <;> simp_all [updN, ARRAY_BUFFER, ELEMENT_ARRAY_BUFFER]

theorem light_wipe_effect_witness :
    lightWipeState.preventCacheWipeBetweenFrames = false
    ∧ ((wipeCaches false lightWipeState).1.currentEffect = none
    ∧ (wipeCaches false lightWipeState).1.viewportCached = ⟨0, 0, 0, 0⟩
    ∧ (wipeCaches false lightWipeState).1.cachedVertexBuffers = none
    ∧ (wipeCaches false lightWipeState).1.cachedIndexBuffer = none
    ∧ (wipeCaches false lightWipeState).1.cachedEffectForVertexBuffers = none
    ∧ (wipeCaches false lightWipeState).1.cachedVertexArrayObject = none
    ∧ (wipeCaches false lightWipeState).1.currentBoundBuffer ARRAY_BUFFER = none
    ∧ (wipeCaches false lightWipeState).1.currentBoundBuffer ELEMENT_ARRAY_BUFFER = none
    ∧ (wipeCaches false lightWipeState).1.boundTexturesCache =
        lightWipeState.boundTexturesCache
    ∧ (wipeCaches false lightWipeState).1.currentTextureChannel =
        lightWipeState.currentTextureChannel
    ∧ (wipeCaches false lightWipeState).1.currentProgram =
        lightWipeState.currentProgram
    ∧ (wipeCaches false lightWipeState).1.depthCullingState =
        lightWipeState.depthCullingState
    ∧ (wipeCaches false lightWipeState).1.depthFunc = lightWipeState.depthFunc
    ∧ (wipeCaches false lightWipeState).1.stencilState = lightWipeState.stencilState
    ∧ (wipeCaches false lightWipeState).1.alphaState = lightWipeState.alphaState
    ∧ (wipeCaches false lightWipeState).1.unpackFlipYCached =
        lightWipeState.unpackFlipYCached
    ∧ (wipeCaches false lightWipeState).1.uintIndicesCurrentlySet =
        lightWipeState.uintIndicesCurrentlySet) :=
  ⟨rfl, light_wipe_effect lightWipeState rfl⟩

/-! ## Power-of-two sizing -/

theorem testBit_log2_self (x : Nat) (hx : 1 ≤ x) : x.testBit x.log2 = true := by
  have h1 : 2 ^ x.log2 ≤ x := Nat.log2_self_le (by omega)
  have h2 : x < 2 ^ (x.log2 + 1) := Nat.lt_log2_self
  have hp : 2 ^ (x.log2 + 1) = 2 ^ x.log2 * 2 := pow_succ 2 x.log2
  have hdiv : x / 2 ^ x.log2 = 1 := Nat.div_eq_of_lt_le (by omega) (by omega)
  rw [Nat.testBit_to_div_mod, hdiv]
  decide

theorem spread_step {y L c : Nat} (k : Nat) (hk : k ≤ c + 1)
    (hQ : ∀ j, j ≤ L → L ≤ j + c → y.testBit j = true) :
    ∀ j, j ≤ L → L ≤ j + (c + k) → (y ||| y >>> k).testBit j = true := by
  intro j hjL hjck
  rw [Nat.testBit_or, Nat.testBit_shiftRight]
  by_cases hcase : L ≤ j + c
  · rw [hQ j hjL hcase, Bool.true_or]
  · rw [hQ (k + j) (by omega) (by omega), Bool.or_true]

theorem potSmear_eq (x : Nat) (h1 : 1 ≤ x) (h2 : x < 2 ^ 32) :
    potSmear x = 2 ^ (x.log2 + 1) - 1 := by
  have hbit : x.testBit x.log2 = true := testBit_log2_self x h1
  have hQ0 : ∀ j, j ≤ x.log2 → x.log2 ≤ j + 0 → x.testBit j = true := by
    intro j hj hj0
    have hjeq : j = x.log2 := by omega
    rw [hjeq, hbit]
  have hQ1 := spread_step 1 (by omega) hQ0
  have hQ2 := spread_step 2 (by omega) hQ1
  have hQ3 := spread_step 4 (by omega) hQ2
  have hQ4 := spread_step 8 (by omega) hQ3
  have hQ5 := spread_step 16 (by omega) hQ4
  have hL : x.log2 ≤ 31 := by
    have := (Nat.log2_lt (by omega)).2 h2
    omega
  have hxlt : x < 2 ^ (x.log2 + 1) := Nat.lt_log2_self
  have hsr : ∀ y k : Nat, y < 2 ^ (x.log2 + 1) → y >>> k < 2 ^ (x.log2 + 1) := by
    intro y k hy
    rw [Nat.shiftRight_eq_div_pow]
    exact lt_of_le_of_lt (Nat.div_le_self _ _) hy
  have hub : potSmear x < 2 ^ (x.log2 + 1) := by
    unfold potSmear
    have s1 := Nat.or_lt_two_pow hxlt (hsr _ 1 hxlt)
    have s2 := Nat.or_lt_two_pow s1 (hsr _ 2 s1)
    have s3 := Nat.or_lt_two_pow s2 (hsr _ 4 s2)
    have s4 := Nat.or_lt_two_pow s3 (hsr _ 8 s3)
    exact Nat.or_lt_two_pow s4 (hsr _ 16 s4)
  have hpos := Nat.two_pow_pos (x.log2 + 1)
  apply Nat.eq_of_testBit_eq
  intro i
  rcases le_or_lt i x.log2 with hi | hi
  · have hset := hQ5 i hi (by omega)
    rw [Nat.testBit_two_pow_sub_one]
    simp only [potSmear]
    rw [hset]
    simp
    omega
  · have hgt : 2 ^ (x.log2 + 1) ≤ 2 ^ i :=
      Nat.pow_le_pow_right (by norm_num) (by omega)
    rw [Nat.testBit_lt_two_pow (lt_of_lt_of_le hub hgt),
      Nat.testBit_lt_two_pow (lt_of_lt_of_le (by omega) hgt)]

theorem FloorPOT_eq (x : Nat) (h1 : 1 ≤ x) (h2 : x < 2 ^ 32) :
    FloorPOT x = 2 ^ x.log2 := by
  have hb : FloorPOT x = potSmear x - potSmear x >>> 1 := rfl
  rw [hb, potSmear_eq x h1 h2]
  have hpos := Nat.two_pow_pos x.log2
  have hp : 2 ^ (x.log2 + 1) = 2 ^ x.log2 * 2 := pow_succ 2 x.log2
  rw [Nat.shiftRight_eq_div_pow, pow_one]
  omega

theorem FloorPOT_spec (x : Nat) (h1 : 1 ≤ x) (h2 : x < 2 ^ 32) :
    ∃ k, FloorPOT x = 2 ^ k ∧ 2 ^ k ≤ x ∧ ∀ m : Nat, 2 ^ m ≤ x → 2 ^ m ≤ 2 ^ k := by
  refine ⟨x.log2, FloorPOT_eq x h1 h2, Nat.log2_self_le (by omega), ?_⟩
  intro m hm
  have hx : x < 2 ^ (x.log2 + 1) := Nat.lt_log2_self
  have hmlt : m < x.log2 + 1 := by
    by_contra hcon
    push_neg at hcon
    have := Nat.pow_le_pow_right (show 0 < 2 by norm_num) hcon
    omega
  exact Nat.pow_le_pow_right (by norm_num) (by omega)

theorem CeilingPOT_spec (x : Nat) (h1 : 1 ≤ x) (h2 : x ≤ 2 ^ 31) :
    ∃ k, CeilingPOT x = 2 ^ k ∧ x ≤ 2 ^ k ∧ ∀ m : Nat, x ≤ 2 ^ m → 2 ^ k ≤ 2 ^ m := by
  rcases Nat.eq_or_lt_of_le h1 with hx1 | hx2
  · refine ⟨0, ?_, by omega, fun m _ => Nat.one_le_two_pow⟩
    rw [← hx1]
    rfl
  · have hc : CeilingPOT x = potSmear (x - 1) + 1 := rfl
    have h32 : (2 : Nat) ^ 31 < 2 ^ 32 := by norm_num
    have hs := potSmear_eq (x - 1) (by omega) (by omega)
    have hpos := Nat.two_pow_pos ((x - 1).log2 + 1)
    refine ⟨(x - 1).log2 + 1, by omega, ?_, ?_⟩
    · have := Nat.lt_log2_self (n := x - 1)
      omega
    · intro m hm
      have hlow : 2 ^ (x - 1).log2 ≤ x - 1 := Nat.log2_self_le (by omega)
      have hmlt : (x - 1).log2 < m := by
        by_contra hcon
        push_neg at hcon
        have := Nat.pow_le_pow_right (show 0 < 2 by norm_num) hcon
        omega
      exact Nat.pow_le_pow_right (by norm_num) (by omega)

theorem NearestPOT_spec (x : Nat) (h1 : 1 ≤ x) (h2 : x ≤ 2 ^ 31) :
    (∃ k, NearestPOT x = 2 ^ k)
    ∧ ∀ m : Nat,
        ((NearestPOT x : Int) - x).natAbs ≤ (((2 : Int) ^ m) - x).natAbs := by
  have h32 : (2 : Nat) ^ 31 < 2 ^ 32 := by norm_num
  obtain ⟨kf, hf, hfle, hfmax⟩ := FloorPOT_spec x h1 (by omega)
  obtain ⟨kc, hcEq, hcge, hcmin⟩ := CeilingPOT_spec x h1 h2
  have hfx : FloorPOT x ≤ x := by rw [hf]; exact hfle
  have hcx : x ≤ CeilingPOT x := by rw [hcEq]; exact hcge
  have hfxI : (FloorPOT x : Int) ≤ (x : Int) := by exact_mod_cast hfx
  have hcxI : (x : Int) ≤ (CeilingPOT x : Int) := by exact_mod_cast hcx
  constructor
  · simp only [NearestPOT]
    split_ifs
    · exact ⟨kf, hf⟩
    · exact ⟨kc, hcEq⟩
  · intro m
    rcases Nat.le_total (2 ^ m) x with hm | hm
    · have hmf : 2 ^ m ≤ FloorPOT x := by rw [hf]; exact hfmax m hm
      have hmfI : ((2 : Int)) ^ m ≤ (FloorPOT x : Int) := by exact_mod_cast hmf
      have hmI : ((2 : Int)) ^ m ≤ (x : Int) := by exact_mod_cast hm
      simp only [NearestPOT]
      split_ifs with hif
      · omega
      · push_neg at hif
        omega
    · have hmc : CeilingPOT x ≤ 2 ^ m := by rw [hcEq]; exact hcmin m hm
      have hmcI : (CeilingPOT x : Int) ≤ ((2 : Int)) ^ m := by exact_mod_cast hmc
      have hmI : (x : Int) ≤ ((2 : Int)) ^ m := by exact_mod_cast hm
      simp only [NearestPOT]
      split_ifs with hif
      · omega
      · push_neg at hif
        omega

/-- C7 counterexample: with power-of-two sizing required and a max texture
size of 16384, a 257-pixel dimension is prepared at 256 — the *nearest*
power of two, which is *below* the input — even though the cap does not
bite, refuting "nearest power-of-two greater than or equal to the input". -/
theorem pot_257_rounds_down :
    preparePotDimension 257 16384 true = 256 ∧ 256 < 257 ∧ 257 ≤ 16384 := by
  decide

/-- C7 amended: on a context requiring power-of-two textures, every
prepared dimension equals the *nearest* power of two to the input
(`GetExponentOfTwo` defaults to `SCALEMODE_NEAREST`, which may round
down), capped at the capability record's max texture size: for every
dimension in the 32-bit texture range the result is
`min (NearestPOT dim) cap`, `NearestPOT dim` is a power of two at minimal
distance from the input among all powers of two, the cap wins whenever it
is smaller, and in particular a 257×257 request yields 256×256 at cap
16384 and 128×128 at cap 128. -/
theorem pot_dimension_nearest_pow_capped (dim cap : Nat)
    (h1 : 1 ≤ dim) (h2 : dim ≤ 2 ^ 31) :
    preparePotDimension dim cap true = Nat.min (NearestPOT dim) cap
    ∧ (∃ k, NearestPOT dim = 2 ^ k)
    ∧ (∀ m : Nat,
        ((NearestPOT dim : Int) - dim).natAbs ≤ (((2 : Int) ^ m) - dim).natAbs)
    ∧ (cap ≤ NearestPOT dim → preparePotDimension dim cap true = cap)
    ∧ preparePotDimension 257 16384 true = 256
    ∧ preparePotDimension 257 128 true = 128 := by
  obtain ⟨hpow, hmin⟩ := NearestPOT_spec dim h1 h2
  have hgen : preparePotDimension dim cap true = Nat.min (NearestPOT dim) cap := by
    unfold preparePotDimension GetExponentOfTwo
    simp only [SCALEMODE_NEAREST, SCALEMODE_FLOOR]
    norm_num
  refine ⟨hgen, hpow, hmin, ?_, by decide, by decide⟩
  intro hcap
  rw [hgen]
  have hconv : Nat.min (NearestPOT dim) cap = min (NearestPOT dim) cap := rfl
  rw [hconv]
  omega

theorem pot_dimension_nearest_pow_capped_witness :
    1 ≤ 257 ∧ 257 ≤ 2 ^ 31
    ∧ (preparePotDimension 257 16384 true = Nat.min (NearestPOT 257) 16384
      ∧ (∃ k, NearestPOT 257 = 2 ^ k)
      ∧ (∀ m : Nat,
          ((NearestPOT 257 : Int) - 257).natAbs ≤ (((2 : Int) ^ m) - 257).natAbs)
      ∧ (16384 ≤ NearestPOT 257 → preparePotDimension 257 16384 true = 16384)
      ∧ preparePotDimension 257 16384 true = 256
      ∧ preparePotDimension 257 128 true = 128) :=
  ⟨by decide, by decide,
    pot_dimension_nearest_pow_capped 257 16384 (by decide) (by decide)⟩

/-! ## Texture-load fallback chain -/

theorem createTextureChain_length_le_one (env : TextureLoadEnv) :
    ∀ fuel urlArg fb excl,
      (createTextureChain env fuel urlArg fb excl).length ≤ 1 := by
  intro fuel
  induction fuel with
  | zero => intro _ _ _; simp [createTextureChain]
  | succ n ih =>
    intro urlArg fb excl
    unfold createTextureChain
    dsimp only
    cases h : env.loadResult (attemptUrl env urlArg fb excl)
        (selectLoader env fb excl) with
    | none => simp
    | some msg =>
      split_ifs with h1 h2
      · exact ih _ _ _
      · exact ih _ _ _
      · simp

/-- C4 corrected: when a load attempt fails and *no* fallback stage applies
(the selected loader, if any, offers no fallback URL and the process-wide
fallback texture is disabled), the caller's `onError` fires exactly once
with the original failure's message (an empty message is replaced by
"Unknown error"); and over any chain, `onError` fires at most once.  When a
fallback stage *is* attempted and itself fails, the delivered message is
that of the last failed attempt, not the original one (see the
counterexample), and the process-wide fallback-texture stage is not limited
to a single attempt per handle. -/
theorem fallback_chain_error_message (env : TextureLoadEnv) (fuel : Nat)
    (urlArg : String) (fb : Bool) (excl : List Nat) (msg : String)
    (hfail : env.loadResult (attemptUrl env urlArg fb excl)
        (selectLoader env fb excl) = some msg)
    (hnofb : ∀ l, selectLoader env fb excl = some l →
        env.fallbackUrl l (attemptUrl env urlArg fb excl) = none)
    (huse : env.useFallbackTexture = false) :
    createTextureChain env (fuel + 1) urlArg fb excl =
      [if msg = "" then "Unknown error" else msg]
    ∧ ∀ fuel2 urlArg2 fb2 excl2,
        (createTextureChain env fuel2 urlArg2 fb2 excl2).length ≤ 1 := by
  constructor
  · unfold createTextureChain
    dsimp only
    rw [hfail]
    cases hsel : selectLoader env fb excl with
    | none => simp [hsel, huse]
    | some l => simp [hsel, hnofb l hsel, huse]
  · exact fun a b c d => createTextureChain_length_le_one env a b c d

theorem fallback_chain_error_message_witness :
    noFallbackEnv.loadResult (attemptUrl noFallbackEnv "a.png" false [])
        (selectLoader noFallbackEnv false []) = some "HTTP 404"
    ∧ (∀ l, selectLoader noFallbackEnv false [] = some l →
        noFallbackEnv.fallbackUrl l (attemptUrl noFallbackEnv "a.png" false []) = none)
    ∧ noFallbackEnv.useFallbackTexture = false
    ∧ (createTextureChain noFallbackEnv (0 + 1) "a.png" false [] =
        [if "HTTP 404" = "" then "Unknown error" else "HTTP 404"]
      ∧ ∀ fuel2 urlArg2 fb2 excl2,
          (createTextureChain noFallbackEnv fuel2 urlArg2 fb2 excl2).length ≤ 1) :=
  ⟨rfl,
    fun l h => by
      rw [show selectLoader noFallbackEnv false [] = none from rfl] at h
      exact Option.noConfusion h,
    rfl,
    fallback_chain_error_message noFallbackEnv 0 "a.png" false [] "HTTP 404" rfl
      (fun l h => by
        rw [show selectLoader noFallbackEnv false [] = none from rfl] at h
        exact Option.noConfusion h)
      rfl⟩

/-- C4 counterexample: with a loader whose fallback URL exists, a first
failure ("original failure") triggers the loader-fallback retry; the retry
(loader excluded) fails with "fallback failure", no further stage applies,
and the caller's `onError` receives "fallback failure" — a fallback-stage
message, not the original failure's message. -/
theorem fallback_failure_message_not_original :
    createTextureChain loaderFallbackEnv 2 "t.ktx" false [] = ["fallback failure"]
    ∧ "fallback failure" ≠ "original failure" := by
  constructor
  · rfl
  · decide

theorem idempotent_texture_binding_witness :
    (1 : Nat) ≠ 2 ∧
    (bindTextureCalls
        (bindTexture 0 (some 1) ((bindTexture 0 (some 1) initialState).1)).2 = []
      ∧ bindTextureCalls
          (bindTexture 0 (some 2) ((bindTexture 0 (some 1) initialState).1)).2 =
        [GLCall.bindTexture TEXTURE_2D (some 2)
          (((bindTexture 0 (some 1) initialState).1).multiview 2)]) :=
  ⟨by decide, idempotent_texture_binding initialState 0 1 2 (by decide)⟩

end BabylonEngine
